import Mathlib

/-!
Verification of the WhisperDictation recording-session lifecycle manager.

This file is a shallow embedding of the session state machine implemented in
`src/extension.ts` (the current revision of the extension): the recording
states, the dictation modes, the temp-file bookkeeping, the stop/convert/
upload pipeline, the transcription error handling, and the command handlers
registered at activation.  File-system effects are modelled by an explicit
association list from paths to file sizes; the environment (subprocess
results, user responses to prompts, the remote API outcome, configuration
values) is passed in explicitly.  Paths are modelled abstractly: the temp
recording `recording-<ts>.wav` is `FPath.wav id`, its OGG conversion target
(`inputPath.replace(/\.wav$/, ".ogg")`) is `FPath.ogg id`, and the debug
artifacts `dictation-<timestamp>.<ext>` / `....txt` are `FPath.debugAudio` /
`FPath.debugTxt`.
-/

namespace WhisperDictation

/-- `RecordingState` enum, extension.ts:24-28. -/
inductive RecordingState
  | idle
  | recording
  | processing
deriving DecidableEq, Repr

/-- `DictationMode` enum, extension.ts:31-34. -/
inductive DictationMode
  | normal
  | clipboardOnly
deriving DecidableEq, Repr

/-- `MAX_FILE_SIZE_BYTES`, extension.ts:48 — 2MB limit before compression. -/
def MAX_FILE_SIZE_BYTES : Nat := 2 * 1024 * 1024

/-- `MAX_FINAL_SIZE_BYTES`, extension.ts:49 — 25MB absolute limit for the API. -/
def MAX_FINAL_SIZE_BYTES : Nat := 25 * 1024 * 1024

/-- Abstract file paths.  `wav id` is the temp recording
`recording-<ts>.wav`; `ogg id` is the path obtained from it by
`replace(/\.wav$/, ".ogg")` (extension.ts:395); `debugAudio`/`debugTxt` are
the debug-directory artifacts (extension.ts:584, 652), whose names embed a
timestamp and never collide with the temp names. -/
inductive FPath
  | wav (id : Nat)
  | ogg (id : Nat)
  | debugAudio (stamp : Nat)
  | debugTxt (stamp : Nat)
deriving DecidableEq, Repr

/-- `inputPath.replace(/\.wav$/, ".ogg")`, extension.ts:395. -/
def oggOf : FPath → FPath
  | .wav i => .ogg i
  | p => p

/-- The on-disk state: an association list from paths to byte sizes.
`fs.existsSync p` is `(lookupF fs p).isSome`; `fs.statSync(p).size` is
`(lookupF fs p).getD 0`. -/
def FS := List (FPath × Nat)

/-- File lookup (first binding wins). -/
def lookupF : FS → FPath → Option Nat
  | [], _ => none
  | (a, n) :: t, p => if a = p then some n else lookupF t p

/-- `fs.unlinkSync p`: remove every binding of `p`. -/
def unlinkF : FS → FPath → FS
  | [], _ => []
  | (a, n) :: t, p => if a = p then unlinkF t p else (a, n) :: unlinkF t p

/-- `fs.copyFileSync`/`fs.writeFileSync` target effect: bind `p` to size `n`. -/
def writeF (fs : FS) (p : FPath) (n : Nat) : FS := (p, n) :: unlinkF fs p

/-- The module-level mutable session state, extension.ts:37-45
(`recordingProcess`, `tempFilePath`, `recordingTimer`, `currentState`,
`currentDictationMode`).  The status-bar item, output channel and OpenAI
client handle carry no lifecycle information and are omitted. -/
structure ExtState where
  currentState : RecordingState
  currentDictationMode : DictationMode
  tempFilePath : Option FPath
  recordingTimer : Option Nat
  recordingProcess : Bool
deriving DecidableEq, Repr

/-- The initial global state after module load, extension.ts:37-45. -/
def ExtState.init : ExtState :=
  { currentState := .idle
    currentDictationMode := .normal
    tempFilePath := none
    recordingTimer := none
    recordingProcess := false }

/-- Observable effects of one handler run.  `states` records, in order, every
value assigned to `currentState`; `apiCalls` counts calls to
`openai.audio.transcriptions.create`; `proceedFile` is the file (and its
size) handed to `transcribeRecording` at the "Valid recording file found"
point (extension.ts:511-512); `uploadedSize` is `statSync(filePath).size`
right before the stream is sent (extension.ts:592); `authNotices` counts the
"Invalid or expired OpenAI API key" notifications; `keyInputBoxes` counts
API-key input boxes shown by `updateApiKey`; `keyStored` records whether a
new key was written to the secret store. -/
structure Trace where
  states : List RecordingState := []
  apiCalls : Nat := 0
  errorSurfaced : Bool := false
  notifyUnexpected : Bool := false
  authNotices : Nat := 0
  keyInputBoxes : Nat := 0
  keyStored : Bool := false
  compressionRan : Bool := false
  proceedFile : Option (FPath × Nat) := none
  uploadedSize : Option Nat := none
  insertedInEditor : Bool := false
  clipboardNotice : Bool := false
deriving DecidableEq, Repr

/-- `resetRecordingState`, extension.ts:200-231: clear the timer, kill the
recording process, delete the temp file (the path field is cleared only
inside the `if (tempFilePath && fs.existsSync(tempFilePath))` guard, i.e.
only when the file was actually on disk), set state Idle, and reset the
dictation mode to Normal via `resetDictationMode` (extension.ts:901-904). -/
def resetRecordingState (s : ExtState) (fs : FS) : ExtState × FS :=
  match s.tempFilePath with
  | some p =>
    if (lookupF fs p).isSome then
      ({ s with recordingTimer := none, recordingProcess := false,
                tempFilePath := none, currentState := .idle,
                currentDictationMode := .normal },
       unlinkF fs p)
    else
      ({ s with recordingTimer := none, recordingProcess := false,
                currentState := .idle, currentDictationMode := .normal }, fs)
  | none =>
    ({ s with recordingTimer := none, recordingProcess := false,
              currentState := .idle, currentDictationMode := .normal }, fs)

/-- `hay.includes(needle)` on character lists (JavaScript
`String.prototype.includes`). -/
def charsContain (needle : List Char) : List Char → Bool
  | [] => needle.isEmpty
  | c :: t => List.isPrefixOf needle (c :: t) || charsContain needle t

/-- JavaScript `s.includes(sub)`. -/
def strIncludes (s sub : String) : Bool := charsContain sub.toList s.toList

/-- The API-key error classification in `transcribeRecording`'s catch block,
extension.ts:663-668: `errorMessage.includes("401") ||
errorMessage.toLowerCase().includes("api key") || ...("unauthorized") ||
...("invalid")`. -/
def isAuthKeyError (msg : String) : Bool :=
  strIncludes msg "401" || strIncludes msg.toLower "api key" ||
    strIncludes msg.toLower "unauthorized" || strIncludes msg.toLower "invalid"

/-- Outcome of one `openai.audio.transcriptions.create` call: the
transcription text, or a rejection whose error message is `msg`. -/
inductive ApiOutcome
  | ok (text : String)
  | failed (msg : String)
deriving DecidableEq, Repr

/-- Environment for one `transcribeRecording` run: the stored credential,
the user's responses to the key prompts, the debug-file configuration and
whether the debug mkdir/copy throws (with the thrown message), and the
outcome of the (single) remote transcription call. -/
structure TranscribeEnv where
  storedKey : Option String
  enterKeyClicked : Bool
  keyEntry : Option String
  saveDebugFiles : Bool
  debugWriteFails : Bool
  debugErrMsg : String
  stamp : Nat
  apiOutcome : ApiOutcome
  updateClicked : Bool
deriving DecidableEq, Repr

/-- Effects of the catch block of `transcribeRecording`
(extension.ts:657-682) for an error with message `msg`: if the message is
auth-classified, the "Invalid or expired OpenAI API key" notification is
shown and, when the user picks "Update API Key", `updateApiKey`
(extension.ts:874-889) shows one input box and stores the entered key;
otherwise a generic failure message is shown.  No transcription retry
occurs on any branch. -/
def runCatch (msg : String) (env : TranscribeEnv) : Nat × Nat × Bool :=
  if isAuthKeyError msg then
    (1, (if env.updateClicked then 1 else 0),
     env.updateClicked && env.keyEntry.isSome)
  else
    (0, 0, false)

/-- The `finally` block of `transcribeRecording` (extension.ts:683-695):
delete `filePath` if it still exists, then `resetRecordingState`. -/
def finalizeTx (s : ExtState) (fs : FS) (filePath : FPath) : ExtState × FS :=
  let fs1 := if (lookupF fs filePath).isSome then unlinkF fs filePath else fs
  resetRecordingState s fs1

/-- Number of API-key input boxes shown while resolving a missing stored
key (`promptForApiKey` → `updateApiKey`, extension.ts:548-557, 866-889). -/
def promptBoxesOf (env : TranscribeEnv) : Nat :=
  if env.storedKey.isSome then 0 else if env.enterKeyClicked then 1 else 0

/-- Whether the missing-key prompt flow stored a new credential. -/
def promptStoredOf (env : TranscribeEnv) : Bool :=
  !env.storedKey.isSome && env.enterKeyClicked && env.keyEntry.isSome

/-- `transcribeRecording`, extension.ts:533-696.  In order: missing-file
early exit; `currentState = Processing`; credential resolution (prompting
via `promptForApiKey`/`updateApiKey` when the secret store is empty); debug
directory creation and audio copy when `saveDebugFiles` is set (a throw here
lands in the catch block — there is no inner try around the debug step); the
single `openai.audio.transcriptions.create` call; clipboard/paste or
clipboard-only notification depending on `currentDictationMode`; the debug
transcript write; the catch block classifying errors; and the `finally`
cleanup.  The paste-fallback chain (extension.ts:622-643) is abstracted as a
successful insertion, since only the mode branch is lifecycle-relevant. -/
def transcribeRecording (s : ExtState) (fs : FS) (filePath : FPath)
    (env : TranscribeEnv) : ExtState × FS × Trace :=
  if (lookupF fs filePath).isSome = false then
    -- extension.ts:535-540: error message, reset; the `return` still runs
    -- the `finally` block, which finds no file and resets again.
    let r1 := resetRecordingState s fs
    let r2 := finalizeTx r1.1 r1.2 filePath
    (r2.1, r2.2, { states := [.idle, .idle], errorSurfaced := true })
  else
    let s1 : ExtState := { s with currentState := .processing }
    if env.storedKey.isSome || (env.enterKeyClicked && env.keyEntry.isSome)
    then
      if env.saveDebugFiles && env.debugWriteFails then
        -- extension.ts:575-588 throws; caught at :657, then `finally`.
        let cb := runCatch env.debugErrMsg env
        let r := finalizeTx s1 fs filePath
        (r.1, r.2,
         { states := [.processing, .idle], errorSurfaced := true,
           authNotices := cb.1,
           keyInputBoxes := promptBoxesOf env + cb.2.1,
           keyStored := promptStoredOf env || cb.2.2 })
      else if env.saveDebugFiles then
        -- The debug copy (extension.ts:572-589) succeeds; the transcript
        -- companion file is written after a successful call (:651-654).
        let fsD := writeF fs (.debugAudio env.stamp)
          ((lookupF fs filePath).getD 0)
        match env.apiOutcome with
        | .ok text =>
          let r := finalizeTx s1
            (writeF fsD (.debugTxt env.stamp) text.length) filePath
          (r.1, r.2,
           { states := [.processing, .idle], apiCalls := 1,
             uploadedSize := some ((lookupF fsD filePath).getD 0),
             keyInputBoxes := promptBoxesOf env,
             keyStored := promptStoredOf env,
             insertedInEditor := s1.currentDictationMode = .normal,
             clipboardNotice := !(s1.currentDictationMode = .normal) })
        | .failed msg =>
          let cb := runCatch msg env
          let r := finalizeTx s1 fsD filePath
          (r.1, r.2,
           { states := [.processing, .idle], apiCalls := 1,
             uploadedSize := some ((lookupF fsD filePath).getD 0),
             errorSurfaced := true, authNotices := cb.1,
             keyInputBoxes := promptBoxesOf env + cb.2.1,
             keyStored := promptStoredOf env || cb.2.2 })
      else
        match env.apiOutcome with
        | .ok text =>
          let r := finalizeTx s1 fs filePath
          (r.1, r.2,
           { states := [.processing, .idle], apiCalls := 1,
             uploadedSize := some ((lookupF fs filePath).getD 0),
             keyInputBoxes := promptBoxesOf env,
             keyStored := promptStoredOf env,
             insertedInEditor := s1.currentDictationMode = .normal,
             clipboardNotice := !(s1.currentDictationMode = .normal) })
        | .failed msg =>
          let cb := runCatch msg env
          let r := finalizeTx s1 fs filePath
          (r.1, r.2,
           { states := [.processing, .idle], apiCalls := 1,
             uploadedSize := some ((lookupF fs filePath).getD 0),
             errorSurfaced := true, authNotices := cb.1,
             keyInputBoxes := promptBoxesOf env + cb.2.1,
             keyStored := promptStoredOf env || cb.2.2 })
    else
      -- extension.ts:548-556: no key and none entered — error message,
      -- reset, return; `finally` then deletes the file and resets again.
      let r1 := resetRecordingState s1 fs
      let r2 := finalizeTx r1.1 r1.2 filePath
      (r2.1, r2.2,
       { states := [.processing, .idle, .idle], errorSurfaced := true,
         keyInputBoxes := promptBoxesOf env })

/-- Outcome of `convertToOgg` (extension.ts:394-434): the conversion
subprocess exits 0 and the OGG file of size `sz` exists at the output path,
or the promise rejects (non-zero exit or process error), in which case no
output file is produced. -/
inductive ConvOutcome
  | success (sz : Nat)
  | failure
deriving DecidableEq, Repr

/-- The tail of `stopRecording` (extension.ts:508-522): the
`fs.existsSync(fileToTranscribe)` re-check, the empty-file check, and the
hand-off to `transcribeRecording`.  `cr` records whether the compression
pass ran on the way here. -/
def proceedTx (s : ExtState) (fs : FS) (f : FPath) (tenv : TranscribeEnv)
    (cr : Bool) : ExtState × FS × Trace :=
  if (lookupF fs f).isSome then
    if (lookupF fs f).getD 0 > 0 then
      let r := transcribeRecording s fs f tenv
      (r.1, r.2.1,
       { r.2.2 with compressionRan := cr,
                    proceedFile := some (f, (lookupF fs f).getD 0) })
    else
      -- extension.ts:513-517: empty file — delete, notify, reset.
      let fs1 := unlinkF fs f
      let r := resetRecordingState s fs1
      (r.1, r.2, { states := [.idle], errorSurfaced := true,
                   compressionRan := cr })
  else
    -- extension.ts:519-521: file vanished — reset.
    let r := resetRecordingState s fs
    (r.1, r.2, { states := [.idle], compressionRan := cr })

/-- Body of `stopRecording` after the state has been set to Processing and
the recorder process has been terminated (extension.ts:469-526): the
temp-file existence check, the 2MB compression trigger, the WAV deletion,
the 25MB post-compression ceiling, and the hand-off to transcription. -/
def stopBody (s : ExtState) (fs : FS) (cenv : ConvOutcome)
    (tenv : TranscribeEnv) : ExtState × FS × Trace :=
  match s.tempFilePath with
  | some p =>
    if (lookupF fs p).isSome then
      if (lookupF fs p).getD 0 > MAX_FILE_SIZE_BYTES then
        match cenv with
        | .success oggSz =>
          let fs1 := writeF fs (oggOf p) oggSz
          -- extension.ts:485: the original WAV is deleted.
          let fs2 := unlinkF fs1 p
          if oggSz > MAX_FINAL_SIZE_BYTES then
            -- extension.ts:489-495: still too large — delete OGG, notify,
            -- reset; no upload.
            let fs3 := unlinkF fs2 (oggOf p)
            let r := resetRecordingState s fs3
            (r.1, r.2, { states := [.idle], errorSurfaced := true,
                         compressionRan := true })
          else
            -- extension.ts:497-498: tempFilePath now points at the OGG.
            proceedTx { s with tempFilePath := some (oggOf p) } fs2
              (oggOf p) tenv true
        | .failure =>
          -- extension.ts:499-505: conversion failed — delete WAV, notify,
          -- reset.
          let fs1 := unlinkF fs p
          let r := resetRecordingState s fs1
          (r.1, r.2, { states := [.idle], errorSurfaced := true,
                       compressionRan := true })
      else
        proceedTx s fs p tenv false
    else
      -- extension.ts:523-526: no recording file found — reset.
      let r := resetRecordingState s fs
      (r.1, r.2, { states := [.idle] })
  | none =>
    let r := resetRecordingState s fs
    (r.1, r.2, { states := [.idle] })

/-- `stopRecording`, extension.ts:436-531: no-op unless currently Recording;
otherwise set Processing, terminate the recorder subprocess
(SIGTERM, then a forced kill, then `recordingProcess = undefined`), and run
the validation/compression/transcription body.  Any throw in the body is
caught at :527-530 and also ends in `resetRecordingState`. -/
def stopRecording (s : ExtState) (fs : FS) (cenv : ConvOutcome)
    (tenv : TranscribeEnv) : ExtState × FS × Trace :=
  if s.currentState ≠ .recording then (s, fs, {})
  else
    let s1 : ExtState :=
      { s with currentState := .processing, recordingProcess := false }
    let r := stopBody s1 fs cenv tenv
    (r.1, r.2.1, { r.2.2 with states := .processing :: r.2.2.states })

/-- How a `startRecording` attempt resolves: the SoX verification fails
(`verifySoxInstallation` returns false, extension.ts:280-282); the spawn
comes back without a process or stdio pipes and :347-349 throws; or the
recorder starts normally. -/
inductive StartOutcome
  | soxFail
  | spawnNoPipes
  | spawnOk
deriving DecidableEq, Repr

/-- `startRecording`, extension.ts:277-392.  On `soxFail` the function
returns after `verifySoxInstallation` has surfaced a platform-specific
error; the temp path has not yet been assigned.  On `spawnNoPipes` the temp
path has been assigned (:285) and the throw at :348 lands in the catch at
:384-391, which calls `stopRecording` (a no-op whenever the state is not
Recording) and shows "Failed to start recording".  On `spawnOk` the state
becomes Recording (:381).  No timer is armed on any branch. -/
def startRecording (s : ExtState) (fs : FS) (newId : Nat) (o : StartOutcome)
    (cenv : ConvOutcome) (tenv : TranscribeEnv) : ExtState × FS × Trace :=
  match o with
  | .soxFail => (s, fs, { errorSurfaced := true })
  | .spawnNoPipes =>
    let s1 : ExtState := { s with tempFilePath := some (.wav newId) }
    let r := stopRecording s1 fs cenv tenv
    (r.1, r.2.1, { r.2.2 with errorSurfaced := true })
  | .spawnOk =>
    ({ s with tempFilePath := some (.wav newId), recordingProcess := true,
              currentState := .recording },
     fs, { states := [.recording] })

/-- The `whisperdictation.startDictation` command handler,
extension.ts:816-821: starts only from Idle. -/
def startDictationCmd (s : ExtState) (fs : FS) (newId : Nat)
    (o : StartOutcome) (cenv : ConvOutcome) (tenv : TranscribeEnv) :
    ExtState × FS × Trace :=
  if s.currentState = .idle then startRecording s fs newId o cenv tenv
  else (s, fs, {})

/-- The `whisperdictation.stopDictation` command handler,
extension.ts:822-827: stops only from Recording. -/
def stopDictationCmd (s : ExtState) (fs : FS) (cenv : ConvOutcome)
    (tenv : TranscribeEnv) : ExtState × FS × Trace :=
  if s.currentState = .recording then stopRecording s fs cenv tenv
  else (s, fs, {})

/-- The `whisperdictation.toggleDictation` command handler,
extension.ts:836-848: from Idle, set clipboard-only mode and start; from
Recording, stop; from Processing, do nothing. -/
def toggleDictationCmd (s : ExtState) (fs : FS) (newId : Nat)
    (o : StartOutcome) (cenv : ConvOutcome) (tenv : TranscribeEnv) :
    ExtState × FS × Trace :=
  if s.currentState = .idle then
    startRecording { s with currentDictationMode := .clipboardOnly } fs
      newId o cenv tenv
  else if s.currentState = .recording then stopRecording s fs cenv tenv
  else (s, fs, {})

/-- The recorder process `close` handler, extension.ts:368-378: when the
exit is abnormal (`code !== 0 && signal !== "SIGTERM"`) and the session is
still Recording, call `stopRecording` and show "Recording stopped
unexpectedly". -/
def processCloseEvent (s : ExtState) (fs : FS) (code : Option Int)
    (signal : Option String) (cenv : ConvOutcome) (tenv : TranscribeEnv) :
    ExtState × FS × Trace :=
  if code ≠ some 0 ∧ signal ≠ some "SIGTERM" ∧
      s.currentState = .recording then
    let r := stopRecording s fs cenv tenv
    (r.1, r.2.1,
     { r.2.2 with notifyUnexpected := true, errorSurfaced := true })
  else (s, fs, {})

/-- The recorder process `error` handler, extension.ts:359-366: call
`stopRecording` and show the recording error. -/
def processErrorEvent (s : ExtState) (fs : FS) (cenv : ConvOutcome)
    (tenv : TranscribeEnv) : ExtState × FS × Trace :=
  let r := stopRecording s fs cenv tenv
  (r.1, r.2.1, { r.2.2 with errorSurfaced := true })

/-- One external stimulus of the session state machine: a command
invocation or a recorder subprocess event, each bundled with the
environment that resolves its internal branches. -/
inductive Event
  | startCmd (newId : Nat) (o : StartOutcome) (cenv : ConvOutcome)
      (tenv : TranscribeEnv)
  | stopCmd (cenv : ConvOutcome) (tenv : TranscribeEnv)
  | toggleCmd (newId : Nat) (o : StartOutcome) (cenv : ConvOutcome)
      (tenv : TranscribeEnv)
  | procClose (code : Option Int) (signal : Option String)
      (cenv : ConvOutcome) (tenv : TranscribeEnv)
  | procError (cenv : ConvOutcome) (tenv : TranscribeEnv)

/-- Dispatch one event against the current global state. -/
def step (s : ExtState) (fs : FS) : Event → ExtState × FS × Trace
  | .startCmd i o c t => startDictationCmd s fs i o c t
  | .stopCmd c t => stopDictationCmd s fs c t
  | .toggleCmd i o c t => toggleDictationCmd s fs i o c t
  | .procClose code sig c t => processCloseEvent s fs code sig c t
  | .procError c t => processErrorEvent s fs c t

/-- The lifecycle edges of the session state machine: staying put, or
Idle → Recording → Processing → Idle. -/
def okEdge (a b : RecordingState) : Bool :=
  a = b ||
    (match a, b with
     | .idle, .recording => true
     | .recording, .processing => true
     | .processing, .idle => true
     | _, _ => false)

/-- Every successive pair in `a :: l` is an allowed edge. -/
def okTrace (a : RecordingState) : List RecordingState → Bool
  | [] => true
  | b :: t => okEdge a b && okTrace b t

/-- The last element of `a :: l`. -/
def lastOf (a : RecordingState) : List RecordingState → RecordingState
  | [] => a
  | b :: t => lastOf b t

/-- The request parameters built at extension.ts:598-602: the `model` field
is the hard-coded literal `"whisper-1"`; the configured
`whisperdictation.transcriptionModel` value (package.json:190-206) is never
read. -/
def transcriptionRequestModel (configuredModel : Option String) : String :=
  "whisper-1"

/-- The `language` request parameter, extension.ts:560:
`getConfiguration("whisperdictation").get<string>("language") || "en"` —
the configured value, with the empty string ("Automatic") and an unset
value both replaced by `"en"`. -/
def transcriptionRequestLanguage (configuredLanguage : Option String) :
    String :=
  match configuredLanguage with
  | some s => if s = "" then "en" else s
  | none => "en"

/-- A benign concrete environment for closed runs: a stored credential,
debug saving off, and a successful transcription. -/
def sampleEnv : TranscribeEnv :=
  { storedKey := some "k", enterKeyClicked := false, keyEntry := none,
    saveDebugFiles := false, debugWriteFails := false, debugErrMsg := "",
    stamp := 0, apiOutcome := .ok "hi", updateClicked := false }

/-- A concrete environment whose transcription call is rejected with a 401
and where the user accepts the re-entry prompt and supplies a new key. -/
def authFailEnv : TranscribeEnv :=
  { sampleEnv with
    apiOutcome := .failed "401",
    updateClicked := true,
    keyEntry := some "k2" }

/-- A concrete environment with debug saving enabled whose debug copy step
throws. -/
def debugFailEnv : TranscribeEnv :=
  { sampleEnv with
    saveDebugFiles := true,
    debugWriteFails := true,
    debugErrMsg := "EACCES: permission denied" }

/-- A concrete mid-recording session state used in closed runs. -/
def sampleRec : ExtState :=
  { currentState := .recording, currentDictationMode := .normal,
    tempFilePath := some (.wav 0), recordingTimer := none,
    recordingProcess := true }

/-! ## Helper lemmas -/

theorem lookupF_unlinkF (fs : FS) (p q : FPath) :
    lookupF (unlinkF fs p) q = if q = p then none else lookupF fs q := by
  induction fs with
  | nil => simp [unlinkF, lookupF]
  | cons hd t ih =>
    obtain ⟨a, n⟩ := hd
    by_cases hap : a = p <;> by_cases haq : a = q <;>
      by_cases hqp : q = p <;> simp_all [unlinkF, lookupF]

theorem lookupF_writeF (fs : FS) (p : FPath) (n : Nat) (q : FPath) :
    lookupF (writeF fs p n) q = if p = q then some n else lookupF fs q := by
  by_cases h : p = q <;> simp [writeF, lookupF, lookupF_unlinkF, h]
  intro h2
  exact absurd h2.symm h

theorem reset_fields (s : ExtState) (fs : FS) :
    (resetRecordingState s fs).1.currentState = .idle ∧
    (resetRecordingState s fs).1.currentDictationMode = .normal ∧
    (resetRecordingState s fs).1.recordingTimer = none ∧
    (resetRecordingState s fs).1.recordingProcess = false := by
  unfold resetRecordingState
  split <;> try split
  all_goals simp

theorem reset_shrink (s : ExtState) (fs : FS) (q : FPath) :
    (lookupF (resetRecordingState s fs).2 q).isSome = true →
    (lookupF fs q).isSome = true := by
  unfold resetRecordingState
  split
  · split
    · simp only [lookupF_unlinkF]
      split
      · simp
      · exact id
    · exact id
  · exact id

theorem reset_temp_gone (s : ExtState) (fs : FS) (p : FPath)
    (h : s.tempFilePath = some p) :
    lookupF (resetRecordingState s fs).2 p = none := by
  unfold resetRecordingState
  split
  · next p2 heq =>
    rw [h] at heq
    injection heq with heq
    subst heq
    split
    · next hex => simp [lookupF_unlinkF]
    · next hex =>
      simp only [Option.isSome] at hex
      split at hex
      · simp_all
      · simp_all
  · next heq => rw [h] at heq; cases heq

theorem finalizeTx_fields (s : ExtState) (fs : FS) (f : FPath) :
    (finalizeTx s fs f).1.currentState = .idle ∧
    (finalizeTx s fs f).1.currentDictationMode = .normal ∧
    (finalizeTx s fs f).1.recordingTimer = none ∧
    (finalizeTx s fs f).1.recordingProcess = false := by
  unfold finalizeTx
  exact reset_fields _ _

theorem finalizeTx_shrink (s : ExtState) (fs : FS) (f : FPath) (q : FPath) :
    (lookupF (finalizeTx s fs f).2 q).isSome = true →
    (lookupF fs q).isSome = true := by
  unfold finalizeTx
  intro h
  have h2 := reset_shrink _ _ _ h
  by_cases hex : (lookupF fs f).isSome
  · simp only [hex, if_true, lookupF_unlinkF] at h2
    split at h2
    · cases h2
    · exact h2
  · simp only [hex, if_false] at h2
    exact h2

theorem finalizeTx_file_gone (s : ExtState) (fs : FS) (f : FPath) :
    lookupF (finalizeTx s fs f).2 f = none := by
  unfold finalizeTx
  by_cases hex : (lookupF fs f).isSome
  · by_cases htmp : s.tempFilePath = some f
    · exact reset_temp_gone _ _ _ htmp
    · have hun : lookupF (if (lookupF fs f).isSome = true then unlinkF fs f
          else fs) f = none := by
        simp [hex, lookupF_unlinkF]
      cases hres : lookupF (resetRecordingState s
          (if (lookupF fs f).isSome = true then unlinkF fs f else fs)).2 f
      · rfl
      · exfalso
        have := reset_shrink s _ f (by rw [hres]; rfl)
        rw [hun] at this
        cases this
  · cases hres : lookupF (resetRecordingState s
        (if (lookupF fs f).isSome = true then unlinkF fs f else fs)).2 f
    · rfl
    · exfalso
      have := reset_shrink s _ f (by rw [hres]; rfl)
      simp only [hex, if_false] at this
      simp only [Option.isSome] at hex this
      split at this
      · simp_all
      · cases this

theorem isSome_writeF (fs : FS) (p : FPath) (n : Nat) (q : FPath) :
    (lookupF (writeF fs p n) q).isSome = true →
    q = p ∨ (lookupF fs q).isSome = true := by
  rw [lookupF_writeF]
  split
  · next h => exact fun _ => Or.inl h.symm
  · exact fun h => Or.inr h

/-- Combined facts about one `transcribeRecording` run: it always ends with
state Idle, mode Normal, no timer and no recording process; the transcribed
file is gone from disk; the only files it can add are the two debug
artifacts; its state-assignment trace follows the lifecycle edges from
Processing down to Idle; and it makes at most one API call. -/
theorem transcribe_spec (s : ExtState) (fs : FS) (f : FPath)
    (env : TranscribeEnv) :
    (transcribeRecording s fs f env).1.currentState = .idle ∧
    (transcribeRecording s fs f env).1.currentDictationMode = .normal ∧
    (transcribeRecording s fs f env).1.recordingTimer = none ∧
    lookupF (transcribeRecording s fs f env).2.1 f = none ∧
    (∀ q, (lookupF (transcribeRecording s fs f env).2.1 q).isSome = true →
      (lookupF fs q).isSome = true ∨ q = .debugAudio env.stamp ∨
        q = .debugTxt env.stamp) ∧
    okTrace .processing (transcribeRecording s fs f env).2.2.states = true ∧
    lastOf .processing (transcribeRecording s fs f env).2.2.states = .idle ∧
    (transcribeRecording s fs f env).2.2.apiCalls ≤ 1 := by
  unfold transcribeRecording
  split
  · -- missing-file branch
    refine ⟨(finalizeTx_fields _ _ _).1, (finalizeTx_fields _ _ _).2.1,
      (finalizeTx_fields _ _ _).2.2.1, finalizeTx_file_gone _ _ _,
      ?_, rfl, rfl, Nat.zero_le _⟩
    intro q h
    exact Or.inl (reset_shrink _ _ _ (finalizeTx_shrink _ _ _ _ h))
  · split
    · split
      · -- debug write failure branch
        refine ⟨(finalizeTx_fields _ _ _).1, (finalizeTx_fields _ _ _).2.1,
          (finalizeTx_fields _ _ _).2.2.1, finalizeTx_file_gone _ _ _,
          ?_, rfl, rfl, Nat.zero_le _⟩
        intro q h
        exact Or.inl (finalizeTx_shrink _ _ _ _ h)
      · split
        · -- debug copy succeeds
          split
          · -- successful transcription
            refine ⟨(finalizeTx_fields _ _ _).1,
              (finalizeTx_fields _ _ _).2.1,
              (finalizeTx_fields _ _ _).2.2.1, finalizeTx_file_gone _ _ _,
              ?_, rfl, rfl, Nat.le_refl 1⟩
            intro q h
            rcases isSome_writeF _ _ _ _ (finalizeTx_shrink _ _ _ _ h)
              with h2 | h2
            · exact Or.inr (Or.inr h2)
            · rcases isSome_writeF _ _ _ _ h2 with h3 | h3
              · exact Or.inr (Or.inl h3)
              · exact Or.inl h3
          · -- failed transcription
            refine ⟨(finalizeTx_fields _ _ _).1,
              (finalizeTx_fields _ _ _).2.1,
              (finalizeTx_fields _ _ _).2.2.1, finalizeTx_file_gone _ _ _,
              ?_, rfl, rfl, Nat.le_refl 1⟩
            intro q h
            rcases isSome_writeF _ _ _ _ (finalizeTx_shrink _ _ _ _ h)
              with h2 | h2
            · exact Or.inr (Or.inl h2)
            · exact Or.inl h2
        · -- no debug copy
          split
          · refine ⟨(finalizeTx_fields _ _ _).1,
              (finalizeTx_fields _ _ _).2.1,
              (finalizeTx_fields _ _ _).2.2.1, finalizeTx_file_gone _ _ _,
              ?_, rfl, rfl, Nat.le_refl 1⟩
            intro q h
            exact Or.inl (finalizeTx_shrink _ _ _ _ h)
          · refine ⟨(finalizeTx_fields _ _ _).1,
              (finalizeTx_fields _ _ _).2.1,
              (finalizeTx_fields _ _ _).2.2.1, finalizeTx_file_gone _ _ _,
              ?_, rfl, rfl, Nat.le_refl 1⟩
            intro q h
            exact Or.inl (finalizeTx_shrink _ _ _ _ h)
    · -- no credential branch
      refine ⟨(finalizeTx_fields _ _ _).1, (finalizeTx_fields _ _ _).2.1,
        (finalizeTx_fields _ _ _).2.2.1, finalizeTx_file_gone _ _ _,
        ?_, rfl, rfl, Nat.zero_le _⟩
      intro q h
      exact Or.inl (reset_shrink _ _ _ (finalizeTx_shrink _ _ _ _ h))

theorem isSome_unlinkF (fs : FS) (p q : FPath) :
    (lookupF (unlinkF fs p) q).isSome = true →
    (lookupF fs q).isSome = true := by
  rw [lookupF_unlinkF]
  split
  · intro h; cases h
  · exact id

theorem unlinkF_self_none (fs : FS) (p : FPath) :
    lookupF (unlinkF fs p) p = none := by
  rw [lookupF_unlinkF]; simp

theorem reset_preserves_none (s : ExtState) (fs : FS) (q : FPath)
    (h : lookupF fs q = none) :
    lookupF (resetRecordingState s fs).2 q = none := by
  cases hres : lookupF (resetRecordingState s fs).2 q
  · rfl
  · exfalso
    have h2 := reset_shrink s fs q (by rw [hres]; rfl)
    rw [h] at h2
    cases h2

/-- Combined facts about the `proceedTx` tail of `stopRecording`: it ends
Idle/Normal/no-timer, the file it was handed is gone from disk afterwards,
it can only add the two debug artifacts, and its state trace follows the
lifecycle edges from Processing down to Idle. -/
theorem proceedTx_spec (s : ExtState) (fs : FS) (f : FPath)
    (tenv : TranscribeEnv) (cr : Bool) :
    (proceedTx s fs f tenv cr).1.currentState = .idle ∧
    (proceedTx s fs f tenv cr).1.currentDictationMode = .normal ∧
    (proceedTx s fs f tenv cr).1.recordingTimer = none ∧
    lookupF (proceedTx s fs f tenv cr).2.1 f = none ∧
    (∀ q, (lookupF (proceedTx s fs f tenv cr).2.1 q).isSome = true →
      (lookupF fs q).isSome = true ∨ q = .debugAudio tenv.stamp ∨
        q = .debugTxt tenv.stamp) ∧
    okTrace .processing (proceedTx s fs f tenv cr).2.2.states = true ∧
    lastOf .processing (proceedTx s fs f tenv cr).2.2.states = .idle := by
  unfold proceedTx
  split
  · split
    · -- hand-off to transcribeRecording
      obtain ⟨h1, h2, h3, h4, h5, h6, h7, _⟩ := transcribe_spec s fs f tenv
      exact ⟨h1, h2, h3, h4, h5, h6, h7⟩
    · -- empty recording file
      refine ⟨(reset_fields _ _).1, (reset_fields _ _).2.1,
        (reset_fields _ _).2.2.1, ?_, ?_, rfl, rfl⟩
      · exact reset_preserves_none _ _ _ (unlinkF_self_none _ _)
      · intro q h
        exact Or.inl (isSome_unlinkF _ _ _ (reset_shrink _ _ _ h))
  · -- file vanished before transcription
    next hex =>
    refine ⟨(reset_fields _ _).1, (reset_fields _ _).2.1,
      (reset_fields _ _).2.2.1, ?_, ?_, rfl, rfl⟩
    · apply reset_preserves_none
      cases hl : lookupF fs f
      · rfl
      · exact absurd (by rw [hl]; rfl) hex
    · intro q h
      exact Or.inl (reset_shrink _ _ _ h)

/-- Combined facts about the body of `stopRecording`: it always returns to
Idle with mode Normal and no timer; when the session's temp file is the
recording WAV, that WAV is gone from disk afterwards and — whenever the
compression pass ran successfully — so is its OGG conversion; the body can
only add the two debug artifacts; and its state trace follows the lifecycle
edges from Processing down to Idle. -/
theorem stopBody_spec (s : ExtState) (fs : FS) (cenv : ConvOutcome)
    (tenv : TranscribeEnv) :
    (stopBody s fs cenv tenv).1.currentState = .idle ∧
    (stopBody s fs cenv tenv).1.currentDictationMode = .normal ∧
    (stopBody s fs cenv tenv).1.recordingTimer = none ∧
    (∀ i, s.tempFilePath = some (.wav i) →
      lookupF (stopBody s fs cenv tenv).2.1 (.wav i) = none ∧
      (∀ sz, cenv = .success sz →
        MAX_FILE_SIZE_BYTES < (lookupF fs (.wav i)).getD 0 →
        lookupF (stopBody s fs cenv tenv).2.1 (.ogg i) = none)) ∧
    (∀ q, (lookupF (stopBody s fs cenv tenv).2.1 q).isSome = true →
      (lookupF fs q).isSome = true ∨ q = .debugAudio tenv.stamp ∨
        q = .debugTxt tenv.stamp) ∧
    okTrace .processing (stopBody s fs cenv tenv).2.2.states = true ∧
    lastOf .processing (stopBody s fs cenv tenv).2.2.states = .idle := by
  unfold stopBody
  split
  · -- tempFilePath = some p
    next p heq =>
    split
    · -- the recording file exists
      next hex =>
      split
      · -- compression pass triggered
        split
        · -- conversion succeeded
          next oggSz =>
          split
          · -- still exceeds the absolute ceiling
            refine ⟨(reset_fields _ _).1, (reset_fields _ _).2.1,
              (reset_fields _ _).2.2.1, ?_, ?_, rfl, rfl⟩
            · intro i hi
              rw [heq] at hi
              injection hi with hi
              subst hi
              constructor
              · apply reset_preserves_none
                rw [lookupF_unlinkF]
                split
                · rfl
                · exact unlinkF_self_none _ _
              · intro sz hsz hgt
                exact reset_preserves_none _ _ _ (unlinkF_self_none _ _)
            · intro q h
              have h0 := reset_shrink _ _ _ h
              have h1 := isSome_unlinkF _ _ _ h0
              have h2 := isSome_unlinkF _ _ _ h1
              rcases isSome_writeF _ _ _ _ h2 with h3 | h3
              · exfalso
                subst h3
                rw [unlinkF_self_none] at h0
                cases h0
              · exact Or.inl h3
          · -- compressed result fits: hand off the OGG
            have hp := proceedTx_spec
              { s with tempFilePath := some (oggOf p) }
              (unlinkF (writeF fs (oggOf p) oggSz) p) (oggOf p) tenv true
            refine ⟨hp.1, hp.2.1, hp.2.2.1, ?_, ?_, hp.2.2.2.2.2.1,
              hp.2.2.2.2.2.2⟩
            · intro i hi
              rw [heq] at hi
              injection hi with hi
              subst hi
              constructor
              · cases hpost : lookupF (proceedTx _ _ _ tenv true).2.1 (.wav i)
                · rfl
                · exfalso
                  rcases hp.2.2.2.2.1 (.wav i) (by rw [hpost]; rfl)
                    with h1 | h1 | h1
                  · rw [lookupF_unlinkF] at h1
                    simp at h1
                  · cases h1
                  · cases h1
              · intro sz hsz hgt
                exact hp.2.2.2.1
            · intro q h
              rcases hp.2.2.2.2.1 q h with h1 | h1 | h1
              · by_cases hqo : q = oggOf p
                · exfalso
                  subst hqo
                  rw [hp.2.2.2.1] at h
                  cases h
                · rw [lookupF_unlinkF] at h1
                  split at h1
                  · cases h1
                  · rw [lookupF_writeF] at h1
                    split at h1
                    · next he => exact absurd he.symm hqo
                    · exact Or.inl h1
              · exact Or.inr (Or.inl h1)
              · exact Or.inr (Or.inr h1)
        · -- conversion failed
          refine ⟨(reset_fields _ _).1, (reset_fields _ _).2.1,
            (reset_fields _ _).2.2.1, ?_, ?_, rfl, rfl⟩
          · intro i hi
            rw [heq] at hi
            injection hi with hi
            subst hi
            refine ⟨reset_preserves_none _ _ _ (unlinkF_self_none _ _), ?_⟩
            intro sz hsz
            cases hsz
          · intro q h
            exact Or.inl (isSome_unlinkF _ _ _ (reset_shrink _ _ _ h))
      · -- small file: hand off the WAV unchanged
        next hsize =>
        have hp := proceedTx_spec s fs p tenv false
        refine ⟨hp.1, hp.2.1, hp.2.2.1, ?_, hp.2.2.2.2.1, hp.2.2.2.2.2.1,
          hp.2.2.2.2.2.2⟩
        intro i hi
        rw [heq] at hi
        injection hi with hi
        subst hi
        refine ⟨hp.2.2.2.1, ?_⟩
        intro sz hsz hgt
        exact absurd hgt hsize
    · -- the recording file is missing
      next hex =>
      refine ⟨(reset_fields _ _).1, (reset_fields _ _).2.1,
        (reset_fields _ _).2.2.1, ?_, ?_, rfl, rfl⟩
      · intro i hi
        rw [heq] at hi
        injection hi with hi
        subst hi
        have hnone : lookupF fs (.wav i) = none := by
          cases hl : lookupF fs (.wav i)
          · rfl
          · exact absurd (by rw [hl]; rfl) hex
        refine ⟨reset_preserves_none _ _ _ hnone, ?_⟩
        intro sz hsz hgt
        rw [hnone] at hgt
        exact absurd hgt (by decide)
      · intro q h
        exact Or.inl (reset_shrink _ _ _ h)
  · -- tempFilePath = none
    next heq =>
    refine ⟨(reset_fields _ _).1, (reset_fields _ _).2.1,
      (reset_fields _ _).2.2.1, ?_, ?_, rfl, rfl⟩
    · intro i hi
      rw [heq] at hi
      cases hi
    · intro q h
      exact Or.inl (reset_shrink _ _ _ h)

/-- `stopRecording` is a no-op outside the Recording state
(extension.ts:440-444). -/
theorem stop_noop (s : ExtState) (fs : FS) (cenv : ConvOutcome)
    (tenv : TranscribeEnv) (h : s.currentState ≠ .recording) :
    stopRecording s fs cenv tenv = (s, fs, ({} : Trace)) := by
  unfold stopRecording
  simp [h]

/-- Combined facts about a full `stopRecording` run from the Recording
state. -/
theorem stop_spec (s : ExtState) (fs : FS) (cenv : ConvOutcome)
    (tenv : TranscribeEnv) (hrec : s.currentState = .recording) :
    (stopRecording s fs cenv tenv).1.currentState = .idle ∧
    (stopRecording s fs cenv tenv).1.currentDictationMode = .normal ∧
    (stopRecording s fs cenv tenv).1.recordingTimer = none ∧
    (∀ i, s.tempFilePath = some (.wav i) →
      lookupF (stopRecording s fs cenv tenv).2.1 (.wav i) = none ∧
      (∀ sz, cenv = .success sz →
        MAX_FILE_SIZE_BYTES < (lookupF fs (.wav i)).getD 0 →
        lookupF (stopRecording s fs cenv tenv).2.1 (.ogg i) = none)) ∧
    (∀ q, (lookupF (stopRecording s fs cenv tenv).2.1 q).isSome = true →
      (lookupF fs q).isSome = true ∨ q = .debugAudio tenv.stamp ∨
        q = .debugTxt tenv.stamp) ∧
    okTrace .recording (stopRecording s fs cenv tenv).2.2.states = true ∧
    lastOf .recording (stopRecording s fs cenv tenv).2.2.states = .idle := by
  have hb := stopBody_spec
    { s with currentState := .processing, recordingProcess := false }
    fs cenv tenv
  unfold stopRecording
  rw [if_neg (by rw [hrec]; exact fun h => h rfl)]
  refine ⟨hb.1, hb.2.1, hb.2.2.1, ?_, hb.2.2.2.2.1, ?_, ?_⟩
  · intro i hi
    exact hb.2.2.2.1 i hi
  · show okTrace .recording (.processing :: _) = true
    unfold okTrace
    rw [hb.2.2.2.2.2.1]
    rfl
  · show lastOf .recording (.processing :: _) = .idle
    unfold lastOf
    exact hb.2.2.2.2.2.2

/-- The size policy of `stopRecording` (extension.ts:470-506), for a session
whose temp WAV is on disk with size `S`: an empty file is deleted and
surfaced as an error with no hand-off; a non-empty file within the 2MB
threshold is handed to transcription unchanged with no compression; above
the threshold the compression pass runs and the WAV is deleted; and a
compressed result above the 25MB ceiling is deleted and surfaced as an
error with no hand-off and no API call. -/
theorem stop_policy_spec (s : ExtState) (fs : FS) (i S : Nat)
    (cenv : ConvOutcome) (tenv : TranscribeEnv)
    (hrec : s.currentState = .recording)
    (htmp : s.tempFilePath = some (.wav i))
    (hlook : lookupF fs (.wav i) = some S) :
    (S = 0 →
      (stopRecording s fs cenv tenv).2.2.compressionRan = false ∧
      (stopRecording s fs cenv tenv).2.2.proceedFile = none ∧
      (stopRecording s fs cenv tenv).2.2.apiCalls = 0 ∧
      (stopRecording s fs cenv tenv).2.2.errorSurfaced = true) ∧
    (0 < S → S ≤ MAX_FILE_SIZE_BYTES →
      (stopRecording s fs cenv tenv).2.2.compressionRan = false ∧
      (stopRecording s fs cenv tenv).2.2.proceedFile =
        some (.wav i, S)) ∧
    (MAX_FILE_SIZE_BYTES < S →
      (stopRecording s fs cenv tenv).2.2.compressionRan = true) ∧
    (∀ sz, MAX_FILE_SIZE_BYTES < S → cenv = .success sz →
      MAX_FINAL_SIZE_BYTES < sz →
      (stopRecording s fs cenv tenv).2.2.errorSurfaced = true ∧
      (stopRecording s fs cenv tenv).2.2.proceedFile = none ∧
      (stopRecording s fs cenv tenv).2.2.apiCalls = 0 ∧
      lookupF (stopRecording s fs cenv tenv).2.1 (.ogg i) = none) := by
  have hne : ¬ s.currentState ≠ .recording := by
    rw [hrec]; exact fun h => h rfl
  unfold stopRecording
  rw [if_neg hne]
  unfold stopBody
  simp only [htmp, hlook, Option.getD_some, Option.isSome_some, if_true]
  refine ⟨?_, ?_, ?_, ?_⟩
  · intro h0
    subst h0
    rw [if_neg (by decide : ¬ (0 > MAX_FILE_SIZE_BYTES))]
    unfold proceedTx
    simp only [hlook, Option.getD_some, Option.isSome_some, if_true]
    rw [if_neg (by decide : ¬ ((0 : Nat) > 0))]
    exact ⟨rfl, rfl, rfl, rfl⟩
  · intro hpos hle
    rw [if_neg (by omega : ¬ (S > MAX_FILE_SIZE_BYTES))]
    unfold proceedTx
    simp only [hlook, Option.getD_some, Option.isSome_some, if_true]
    rw [if_pos hpos]
    exact ⟨rfl, rfl⟩
  · intro hgt
    rw [if_pos (by omega : S > MAX_FILE_SIZE_BYTES)]
    cases cenv with
    | success sz =>
      dsimp only
      by_cases hsz : sz > MAX_FINAL_SIZE_BYTES
      · rw [if_pos hsz]
      · rw [if_neg hsz]
        unfold proceedTx
        split
        · split
          · rfl
          · rfl
        · rfl
    | failure => rfl
  · intro sz hgt hc hczn
    subst hc
    rw [if_pos (by omega : S > MAX_FILE_SIZE_BYTES)]
    dsimp only
    rw [if_pos (by omega : sz > MAX_FINAL_SIZE_BYTES)]
    refine ⟨rfl, rfl, rfl, ?_⟩
    exact reset_preserves_none _ _ _ (unlinkF_self_none _ _)

/-- The state-assignment trace of a `startRecording` attempt from Idle
respects the lifecycle edges and ends at the resulting state. -/
theorem start_trace_spec (s : ExtState) (fs : FS) (newId : Nat)
    (o : StartOutcome) (cenv : ConvOutcome) (tenv : TranscribeEnv)
    (hidle : s.currentState = .idle) :
    okTrace s.currentState
      (startRecording s fs newId o cenv tenv).2.2.states = true ∧
    lastOf s.currentState
        (startRecording s fs newId o cenv tenv).2.2.states =
      (startRecording s fs newId o cenv tenv).1.currentState := by
  cases o
  · exact ⟨rfl, rfl⟩
  · -- spawnNoPipes: the catch's stopRecording is a no-op from Idle
    have hnoop := stop_noop { s with tempFilePath := some (.wav newId) } fs
      cenv tenv (by show s.currentState ≠ .recording; rw [hidle]; decide)
    unfold startRecording
    dsimp only
    rw [hnoop]
    exact ⟨rfl, rfl⟩
  · -- spawnOk
    rw [hidle]
    exact ⟨rfl, rfl⟩

/-! ## Claims -/

/-- C9: for every command invocation and internal recorder event, the
sequence of values assigned to `currentState` only ever moves along the
edges Idle → Recording → Processing → Idle (staying put is not a move), and
the final state is the last assigned value. -/
theorem c9_transitions (s : ExtState) (fs : FS) (e : Event) :
    okTrace s.currentState (step s fs e).2.2.states = true ∧
    lastOf s.currentState (step s fs e).2.2.states =
      (step s fs e).1.currentState := by
  cases e with
  | startCmd i o c t =>
    unfold step startDictationCmd
    dsimp only
    by_cases hidle : s.currentState = .idle
    · rw [if_pos hidle]
      exact start_trace_spec s fs i o c t hidle
    · rw [if_neg hidle]
      exact ⟨rfl, rfl⟩
  | stopCmd c t =>
    unfold step stopDictationCmd
    dsimp only
    by_cases hrec : s.currentState = .recording
    · rw [if_pos hrec]
      obtain ⟨h1, _, _, _, _, h6, h7⟩ := stop_spec s fs c t hrec
      rw [hrec]
      exact ⟨h6, by rw [h7, h1]⟩
    · rw [if_neg hrec]
      exact ⟨rfl, rfl⟩
  | toggleCmd i o c t =>
    unfold step toggleDictationCmd
    dsimp only
    by_cases hidle : s.currentState = .idle
    · rw [if_pos hidle]
      exact start_trace_spec
        { s with currentDictationMode := .clipboardOnly } fs i o c t hidle
    · rw [if_neg hidle]
      by_cases hrec : s.currentState = .recording
      · rw [if_pos hrec]
        obtain ⟨h1, _, _, _, _, h6, h7⟩ := stop_spec s fs c t hrec
        rw [hrec]
        exact ⟨h6, by rw [h7, h1]⟩
      · rw [if_neg hrec]
        exact ⟨rfl, rfl⟩
  | procClose code sig c t =>
    unfold step processCloseEvent
    dsimp only
    by_cases hcond : code ≠ some 0 ∧ sig ≠ some "SIGTERM" ∧
        s.currentState = .recording
    · rw [if_pos hcond]
      obtain ⟨h1, _, _, _, _, h6, h7⟩ := stop_spec s fs c t hcond.2.2
      rw [hcond.2.2]
      constructor
      · show okTrace .recording (stopRecording s fs c t).2.2.states = true
        exact h6
      · show lastOf .recording (stopRecording s fs c t).2.2.states =
          (stopRecording s fs c t).1.currentState
        rw [h7, h1]
    · rw [if_neg hcond]
      exact ⟨rfl, rfl⟩
  | procError c t =>
    unfold step processErrorEvent
    dsimp only
    by_cases hrec : s.currentState = .recording
    · obtain ⟨h1, _, _, _, _, h6, h7⟩ := stop_spec s fs c t hrec
      rw [hrec]
      constructor
      · show okTrace .recording (stopRecording s fs c t).2.2.states = true
        exact h6
      · show lastOf .recording (stopRecording s fs c t).2.2.states =
          (stopRecording s fs c t).1.currentState
        rw [h7, h1]
    · dsimp only
      rw [stop_noop s fs c t hrec]
      exact ⟨rfl, rfl⟩

/-- C1 counterexample: the claim demands that, when a session's
transcription fails with an AuthFailure and the user supplies a new
credential, the transcription is retried exactly once with the new
credential (two attempts total).  In the code no retry exists: the run
below fails with "401", the user supplies a new key, and exactly one API
call is made. -/
theorem c1_counterexample :
    ¬ (∀ (s : ExtState) (fs : FS) (f : FPath) (env : TranscribeEnv)
        (msg : String),
        env.storedKey.isSome = true →
        env.apiOutcome = .failed msg →
        isAuthKeyError msg = true →
        env.updateClicked = true →
        env.keyEntry.isSome = true →
        (transcribeRecording s fs f env).2.2.apiCalls = 2) := by
  intro hclaim
  have := hclaim ExtState.init [(.wav 0, 5)] (.wav 0) authFailEnv "401"
    rfl rfl (by decide) rfl rfl
  exact absurd this (by decide)

/-- C1 (amended): on an AuthFailure-classified transcription failure with a
stored credential, the invalid-key notification is shown exactly once and
the key-entry box exactly once if the user accepts; a supplied credential
is stored, but the transcription is not retried — exactly one API call is
made per session. -/
theorem c1_no_retry (s : ExtState) (fs : FS) (f : FPath)
    (env : TranscribeEnv) (msg : String)
    (hkey : env.storedKey.isSome = true)
    (hfile : (lookupF fs f).isSome = true)
    (hdbg : env.saveDebugFiles = false)
    (hmsg : env.apiOutcome = .failed msg)
    (hauth : isAuthKeyError msg = true) :
    (transcribeRecording s fs f env).2.2.apiCalls = 1 ∧
    (transcribeRecording s fs f env).2.2.authNotices = 1 ∧
    (transcribeRecording s fs f env).2.2.keyInputBoxes =
      (if env.updateClicked then 1 else 0) ∧
    (transcribeRecording s fs f env).2.2.keyStored =
      (env.updateClicked && env.keyEntry.isSome) := by
  unfold transcribeRecording
  rw [if_neg (by rw [hfile]; decide)]
  rw [if_pos (by simp [hkey])]
  rw [if_neg (by simp [hdbg])]
  rw [if_neg (by rw [hdbg]; decide)]
  rw [hmsg]
  dsimp only
  refine ⟨rfl, ?_, ?_, ?_⟩ <;>
    simp [runCatch, hauth, promptBoxesOf, promptStoredOf, hkey]

/-- C1 witness: the amended theorem at a concrete auth-failing run where
the user supplies a new key. -/
theorem c1_no_retry_witness :
    authFailEnv.storedKey.isSome = true ∧
    (lookupF [(FPath.wav 0, 5)] (.wav 0)).isSome = true ∧
    authFailEnv.saveDebugFiles = false ∧
    authFailEnv.apiOutcome = .failed "401" ∧
    isAuthKeyError "401" = true ∧
    ((transcribeRecording ExtState.init [(.wav 0, 5)] (.wav 0)
        authFailEnv).2.2.apiCalls = 1 ∧
      (transcribeRecording ExtState.init [(.wav 0, 5)] (.wav 0)
        authFailEnv).2.2.authNotices = 1 ∧
      (transcribeRecording ExtState.init [(.wav 0, 5)] (.wav 0)
        authFailEnv).2.2.keyInputBoxes =
        (if authFailEnv.updateClicked then 1 else 0) ∧
      (transcribeRecording ExtState.init [(.wav 0, 5)] (.wav 0)
        authFailEnv).2.2.keyStored =
        (authFailEnv.updateClicked && authFailEnv.keyEntry.isSome)) :=
  ⟨rfl, rfl, rfl, rfl, by decide,
    c1_no_retry ExtState.init [(.wav 0, 5)] (.wav 0) authFailEnv "401"
      rfl rfl rfl rfl (by decide)⟩

/-- C2 counterexample: the claim says every file of size S ≤ 2 MiB is
uploaded unchanged; a zero-byte file is instead deleted with the
empty-recording error and never handed to transcription. -/
theorem c2_counterexample :
    ¬ (∀ (s : ExtState) (fs : FS) (i S : Nat) (cenv : ConvOutcome)
        (tenv : TranscribeEnv),
        s.currentState = .recording →
        s.tempFilePath = some (.wav i) →
        lookupF fs (.wav i) = some S →
        S ≤ MAX_FILE_SIZE_BYTES →
        (stopRecording s fs cenv tenv).2.2.compressionRan = false ∧
        (stopRecording s fs cenv tenv).2.2.proceedFile =
          some (.wav i, S)) := by
  intro hclaim
  have := hclaim sampleRec [(.wav 0, 0)] 0 0 .failure sampleEnv rfl rfl rfl
    (by decide)
  exact absurd this.2 (by decide)

/-- C2 (amended): the size policy of `stopRecording` — S = 0 fails with the
empty-recording error and no hand-off; 0 < S ≤ 2 MiB is handed to
transcription unchanged, with no compression; S > 2 MiB triggers the
compression pass; a compressed result above 25 MiB fails with the oversize
error, the OGG is deleted, and no upload occurs. -/
theorem c2_size_policy (s : ExtState) (fs : FS) (i S : Nat)
    (cenv : ConvOutcome) (tenv : TranscribeEnv)
    (hrec : s.currentState = .recording)
    (htmp : s.tempFilePath = some (.wav i))
    (hlook : lookupF fs (.wav i) = some S) :
    (S = 0 →
      (stopRecording s fs cenv tenv).2.2.compressionRan = false ∧
      (stopRecording s fs cenv tenv).2.2.proceedFile = none ∧
      (stopRecording s fs cenv tenv).2.2.apiCalls = 0 ∧
      (stopRecording s fs cenv tenv).2.2.errorSurfaced = true) ∧
    (0 < S → S ≤ MAX_FILE_SIZE_BYTES →
      (stopRecording s fs cenv tenv).2.2.compressionRan = false ∧
      (stopRecording s fs cenv tenv).2.2.proceedFile =
        some (.wav i, S)) ∧
    (MAX_FILE_SIZE_BYTES < S →
      (stopRecording s fs cenv tenv).2.2.compressionRan = true ∧
      lookupF (stopRecording s fs cenv tenv).2.1 (.wav i) = none) ∧
    (∀ sz, MAX_FILE_SIZE_BYTES < S → cenv = .success sz →
      MAX_FINAL_SIZE_BYTES < sz →
      (stopRecording s fs cenv tenv).2.2.errorSurfaced = true ∧
      (stopRecording s fs cenv tenv).2.2.proceedFile = none ∧
      (stopRecording s fs cenv tenv).2.2.apiCalls = 0 ∧
      lookupF (stopRecording s fs cenv tenv).2.1 (.ogg i) = none) := by
  obtain ⟨hp1, hp2, hp3, hp4⟩ :=
    stop_policy_spec s fs i S cenv tenv hrec htmp hlook
  refine ⟨hp1, hp2, ?_, hp4⟩
  intro hgt
  exact ⟨hp3 hgt, ((stop_spec s fs cenv tenv hrec).2.2.2.1 i htmp).1⟩

/-- C2 witness: the amended theorem at a concrete 5-byte recording. -/
theorem c2_size_policy_witness :
    sampleRec.currentState = .recording ∧
    sampleRec.tempFilePath = some (.wav 0) ∧
    lookupF [(FPath.wav 0, 5)] (.wav 0) = some 5 ∧
    ((5 = 0 →
      (stopRecording sampleRec [(.wav 0, 5)] .failure
        sampleEnv).2.2.compressionRan = false ∧
      (stopRecording sampleRec [(.wav 0, 5)] .failure
        sampleEnv).2.2.proceedFile = none ∧
      (stopRecording sampleRec [(.wav 0, 5)] .failure
        sampleEnv).2.2.apiCalls = 0 ∧
      (stopRecording sampleRec [(.wav 0, 5)] .failure
        sampleEnv).2.2.errorSurfaced = true) ∧
    (0 < 5 → 5 ≤ MAX_FILE_SIZE_BYTES →
      (stopRecording sampleRec [(.wav 0, 5)] .failure
        sampleEnv).2.2.compressionRan = false ∧
      (stopRecording sampleRec [(.wav 0, 5)] .failure
        sampleEnv).2.2.proceedFile = some (.wav 0, 5)) ∧
    (MAX_FILE_SIZE_BYTES < 5 →
      (stopRecording sampleRec [(.wav 0, 5)] .failure
        sampleEnv).2.2.compressionRan = true ∧
      lookupF (stopRecording sampleRec [(.wav 0, 5)] .failure
        sampleEnv).2.1 (.wav 0) = none) ∧
    (∀ sz, MAX_FILE_SIZE_BYTES < 5 → ConvOutcome.failure = .success sz →
      MAX_FINAL_SIZE_BYTES < sz →
      (stopRecording sampleRec [(.wav 0, 5)] .failure
        sampleEnv).2.2.errorSurfaced = true ∧
      (stopRecording sampleRec [(.wav 0, 5)] .failure
        sampleEnv).2.2.proceedFile = none ∧
      (stopRecording sampleRec [(.wav 0, 5)] .failure
        sampleEnv).2.2.apiCalls = 0 ∧
      lookupF (stopRecording sampleRec [(.wav 0, 5)] .failure
        sampleEnv).2.1 (.ogg 0) = none)) :=
  ⟨rfl, rfl, rfl,
    c2_size_policy sampleRec [(.wav 0, 5)] 0 5 .failure sampleEnv
      rfl rfl rfl⟩

/-- C3: for every path that enters Processing, the session's temp file (and
its OGG conversion, whenever the compression pass produced one) is absent
from disk once the state is back at Idle, and the only files the session
can have added are the separately named debug artifacts. -/
theorem c3_cleanup_total (s : ExtState) (fs : FS) (i : Nat)
    (cenv : ConvOutcome) (tenv : TranscribeEnv)
    (hrec : s.currentState = .recording)
    (htmp : s.tempFilePath = some (.wav i)) :
    (stopRecording s fs cenv tenv).1.currentState = .idle ∧
    lookupF (stopRecording s fs cenv tenv).2.1 (.wav i) = none ∧
    (∀ sz, cenv = .success sz →
      MAX_FILE_SIZE_BYTES < (lookupF fs (.wav i)).getD 0 →
      lookupF (stopRecording s fs cenv tenv).2.1 (.ogg i) = none) ∧
    (∀ q, (lookupF (stopRecording s fs cenv tenv).2.1 q).isSome = true →
      (lookupF fs q).isSome = true ∨ q = .debugAudio tenv.stamp ∨
        q = .debugTxt tenv.stamp) := by
  obtain ⟨h1, _, _, h4, h5, _, _⟩ := stop_spec s fs cenv tenv hrec
  exact ⟨h1, (h4 i htmp).1, (h4 i htmp).2, h5⟩

/-- C3 witness: cleanup totality at a concrete 5-byte recording whose
transcription succeeds. -/
theorem c3_cleanup_total_witness :
    sampleRec.currentState = .recording ∧
    sampleRec.tempFilePath = some (.wav 0) ∧
    ((stopRecording sampleRec [(.wav 0, 5)] .failure
        sampleEnv).1.currentState = .idle ∧
    lookupF (stopRecording sampleRec [(.wav 0, 5)] .failure
      sampleEnv).2.1 (.wav 0) = none ∧
    (∀ sz, ConvOutcome.failure = .success sz →
      MAX_FILE_SIZE_BYTES < (lookupF [(FPath.wav 0, 5)] (.wav 0)).getD 0 →
      lookupF (stopRecording sampleRec [(.wav 0, 5)] .failure
        sampleEnv).2.1 (.ogg 0) = none) ∧
    (∀ q, (lookupF (stopRecording sampleRec [(.wav 0, 5)] .failure
        sampleEnv).2.1 q).isSome = true →
      (lookupF [(FPath.wav 0, 5)] q).isSome = true ∨
        q = .debugAudio sampleEnv.stamp ∨ q = .debugTxt sampleEnv.stamp)) :=
  ⟨rfl, rfl,
    c3_cleanup_total sampleRec [(.wav 0, 5)] 0 .failure sampleEnv rfl rfl⟩

/-- C4 counterexample: the claim says that on every entry to the Recording
state a timer is armed that fires stop after 30 minutes.  No such timer is
ever armed: a successful start reaches Recording with `recordingTimer`
still `none`. -/
theorem c4_counterexample :
    ¬ (∀ (s : ExtState) (fs : FS) (newId : Nat) (cenv : ConvOutcome)
        (tenv : TranscribeEnv),
        (startRecording s fs newId .spawnOk cenv
            tenv).1.currentState = .recording →
        (startRecording s fs newId .spawnOk cenv
            tenv).1.recordingTimer = some (30 * 60 * 1000)) := by
  intro hclaim
  have := hclaim ExtState.init [] 0 .failure sampleEnv rfl
  exact absurd this (by decide)

/-- C4 (amended): no auto-stop timer exists — `startRecording` never arms
one (the timer field is unchanged on every branch reachable from Idle, and
at most cleared through the embedded stop), and the only operation on the
timer anywhere is the clear in `resetRecordingState` and the clears it
induces in `stopRecording`; a session can therefore stay in Recording
indefinitely. -/
theorem c4_no_timer (s : ExtState) (fs : FS) (newId : Nat)
    (o : StartOutcome) (cenv : ConvOutcome) (tenv : TranscribeEnv) :
    ((startRecording s fs newId o cenv tenv).1.recordingTimer =
        s.recordingTimer ∨
      (startRecording s fs newId o cenv tenv).1.recordingTimer = none) ∧
    (resetRecordingState s fs).1.recordingTimer = none ∧
    ((stopRecording s fs cenv tenv).1.recordingTimer = s.recordingTimer ∨
      (stopRecording s fs cenv tenv).1.recordingTimer = none) := by
  refine ⟨?_, (reset_fields s fs).2.2.1, ?_⟩
  · cases o with
    | soxFail => exact Or.inl rfl
    | spawnOk => exact Or.inl rfl
    | spawnNoPipes =>
      by_cases hrec : s.currentState = .recording
      · right
        show (stopRecording { s with tempFilePath := some (.wav newId) }
            fs cenv tenv).1.recordingTimer = none
        exact (stop_spec { s with tempFilePath := some (.wav newId) } fs
          cenv tenv hrec).2.2.1
      · left
        show (stopRecording { s with tempFilePath := some (.wav newId) }
            fs cenv tenv).1.recordingTimer = s.recordingTimer
        rw [stop_noop { s with tempFilePath := some (.wav newId) } fs cenv
          tenv hrec]
  · by_cases hrec : s.currentState = .recording
    · exact Or.inr (stop_spec s fs cenv tenv hrec).2.2.1
    · rw [stop_noop s fs cenv tenv hrec]
      exact Or.inl rfl

/-- C5 counterexample: the claim says a failing debug-directory/copy step
must not abort the transcription — the upload still proceeds.  In the code
the debug step is inside the main try block: when it throws, the catch
runs, no API call is made, and the session fails. -/
theorem c5_counterexample :
    ¬ (∀ (s : ExtState) (fs : FS) (f : FPath) (env : TranscribeEnv),
        env.storedKey.isSome = true →
        (lookupF fs f).isSome = true →
        env.saveDebugFiles = true →
        env.debugWriteFails = true →
        (transcribeRecording s fs f env).2.2.apiCalls = 1) := by
  intro hclaim
  have := hclaim ExtState.init [(.wav 0, 5)] (.wav 0) debugFailEnv rfl
    (by decide) rfl rfl
  exact absurd this (by decide)

/-- C5 (amended): a failure while creating the debug directory or copying
the audio file aborts the transcription flow — no upload is attempted, the
failure is surfaced as an error, and the session still cleans up its temp
file and returns to Idle. -/
theorem c5_debug_failure_aborts (s : ExtState) (fs : FS) (f : FPath)
    (env : TranscribeEnv)
    (hkey : env.storedKey.isSome = true)
    (hfile : (lookupF fs f).isSome = true)
    (hdbg : env.saveDebugFiles = true)
    (hfail : env.debugWriteFails = true) :
    (transcribeRecording s fs f env).2.2.apiCalls = 0 ∧
    (transcribeRecording s fs f env).2.2.errorSurfaced = true ∧
    (transcribeRecording s fs f env).1.currentState = .idle ∧
    lookupF (transcribeRecording s fs f env).2.1 f = none := by
  have ht := transcribe_spec s fs f env
  refine ⟨?_, ?_, ht.1, ht.2.2.2.1⟩ <;>
  · unfold transcribeRecording
    rw [if_neg (by rw [hfile]; decide)]
    rw [if_pos (by simp [hkey])]
    rw [if_pos (by simp [hdbg, hfail])]

/-- C5 witness: the amended theorem at a concrete run with a failing debug
copy. -/
theorem c5_debug_failure_aborts_witness :
    debugFailEnv.storedKey.isSome = true ∧
    (lookupF [(FPath.wav 0, 5)] (.wav 0)).isSome = true ∧
    debugFailEnv.saveDebugFiles = true ∧
    debugFailEnv.debugWriteFails = true ∧
    ((transcribeRecording ExtState.init [(.wav 0, 5)] (.wav 0)
        debugFailEnv).2.2.apiCalls = 0 ∧
      (transcribeRecording ExtState.init [(.wav 0, 5)] (.wav 0)
        debugFailEnv).2.2.errorSurfaced = true ∧
      (transcribeRecording ExtState.init [(.wav 0, 5)] (.wav 0)
        debugFailEnv).1.currentState = .idle ∧
      lookupF (transcribeRecording ExtState.init [(.wav 0, 5)] (.wav 0)
        debugFailEnv).2.1 (.wav 0) = none) :=
  ⟨rfl, rfl, rfl, rfl,
    c5_debug_failure_aborts ExtState.init [(.wav 0, 5)] (.wav 0)
      debugFailEnv rfl rfl rfl rfl⟩

/-- C6: the transcription request hard-codes the model `"whisper-1"`
(extension.ts:600) and ignores the `whisperdictation.transcriptionModel`
configuration that package.json declares with default
`"gpt-4o-mini-transcribe"`; the language parameter does pass through with
the `"en"` fallback as claimed. -/
theorem c6_model_hardcoded :
    transcriptionRequestModel (some "gpt-4o-mini-transcribe") =
      "whisper-1" ∧
    transcriptionRequestModel (some "gpt-4o-transcribe") = "whisper-1" ∧
    "whisper-1" ≠ "gpt-4o-mini-transcribe" ∧
    transcriptionRequestLanguage (some "de") = "de" ∧
    transcriptionRequestLanguage (some "") = "en" ∧
    transcriptionRequestLanguage none = "en" := by
  refine ⟨rfl, rfl, ?_, rfl, rfl, rfl⟩
  decide

/-- C7 counterexample: the claim says an abnormal recorder exit while
Recording forces a reset without proceeding into transcription.  The close
handler instead calls `stopRecording`: with a valid non-empty file the run
below hands the file to transcription and makes an API call. -/
theorem c7_counterexample :
    ¬ (∀ (s : ExtState) (fs : FS) (code : Option Int)
        (signal : Option String) (cenv : ConvOutcome)
        (tenv : TranscribeEnv),
        s.currentState = .recording →
        code ≠ some 0 →
        signal ≠ some "SIGTERM" →
        (processCloseEvent s fs code signal cenv
            tenv).2.2.proceedFile = none ∧
        (processCloseEvent s fs code signal cenv
            tenv).2.2.apiCalls = 0) := by
  intro hclaim
  have := hclaim sampleRec [(.wav 0, 5)] (some 1) none .failure sampleEnv
    rfl (by decide) (by decide)
  exact absurd this.2 (by decide)

/-- C7 (amended): an abnormal recorder exit while Recording notifies the
user and runs the normal stop path — with a valid non-empty recording the
session proceeds into transcription, and cleanup then returns the state to
Idle with the temp file removed. -/
theorem c7_unexpected_exit_normal_stop (s : ExtState) (fs : FS)
    (code : Option Int) (signal : Option String) (i S : Nat)
    (cenv : ConvOutcome) (tenv : TranscribeEnv)
    (hrec : s.currentState = .recording)
    (hcode : code ≠ some 0) (hsig : signal ≠ some "SIGTERM")
    (htmp : s.tempFilePath = some (.wav i))
    (hlook : lookupF fs (.wav i) = some S)
    (hpos : 0 < S) (hsmall : S ≤ MAX_FILE_SIZE_BYTES) :
    (processCloseEvent s fs code signal cenv tenv).2.2.notifyUnexpected =
      true ∧
    (processCloseEvent s fs code signal cenv tenv).2.2.proceedFile =
      some (.wav i, S) ∧
    (processCloseEvent s fs code signal cenv tenv).1.currentState =
      .idle ∧
    lookupF (processCloseEvent s fs code signal cenv tenv).2.1 (.wav i) =
      none := by
  have hpol := stop_policy_spec s fs i S cenv tenv hrec htmp hlook
  have hsp := stop_spec s fs cenv tenv hrec
  unfold processCloseEvent
  rw [if_pos ⟨hcode, hsig, hrec⟩]
  refine ⟨rfl, ?_, ?_, ?_⟩
  · show (stopRecording s fs cenv tenv).2.2.proceedFile =
      some (.wav i, S)
    exact (hpol.2.1 hpos hsmall).2
  · show (stopRecording s fs cenv tenv).1.currentState = .idle
    exact hsp.1
  · show lookupF (stopRecording s fs cenv tenv).2.1 (.wav i) = none
    exact (hsp.2.2.2.1 i htmp).1

/-- C7 witness: the amended theorem at a concrete abnormal exit with a
5-byte recording on disk. -/
theorem c7_unexpected_exit_normal_stop_witness :
    sampleRec.currentState = .recording ∧
    (some (1 : Int) ≠ some 0) ∧
    ((none : Option String) ≠ some "SIGTERM") ∧
    sampleRec.tempFilePath = some (.wav 0) ∧
    lookupF [(FPath.wav 0, 5)] (.wav 0) = some 5 ∧
    0 < 5 ∧ 5 ≤ MAX_FILE_SIZE_BYTES ∧
    ((processCloseEvent sampleRec [(.wav 0, 5)] (some 1) none .failure
        sampleEnv).2.2.notifyUnexpected = true ∧
      (processCloseEvent sampleRec [(.wav 0, 5)] (some 1) none .failure
        sampleEnv).2.2.proceedFile = some (.wav 0, 5) ∧
      (processCloseEvent sampleRec [(.wav 0, 5)] (some 1) none .failure
        sampleEnv).1.currentState = .idle ∧
      lookupF (processCloseEvent sampleRec [(.wav 0, 5)] (some 1) none
        .failure sampleEnv).2.1 (.wav 0) = none) :=
  ⟨rfl, by decide, by decide, rfl, rfl, by decide, by decide,
    c7_unexpected_exit_normal_stop sampleRec [(.wav 0, 5)] (some 1) none
      0 5 .failure sampleEnv rfl (by decide) (by decide) rfl rfl
      (by decide) (by decide)⟩

/-- C8 counterexample: the claim says a failed start attempt leaves no
partial state, with the temp-file path field cleared.  On the
missing-stdio-pipes path the field keeps the freshly assigned path: the
catch's `stopRecording` returns immediately because the state is still
Idle, and nothing clears `tempFilePath`. -/
theorem c8_counterexample :
    ¬ (∀ (s : ExtState) (fs : FS) (newId : Nat) (cenv : ConvOutcome)
        (tenv : TranscribeEnv),
        s.currentState = .idle →
        (startRecording s fs newId .spawnNoPipes cenv
            tenv).1.tempFilePath = none) := by
  intro hclaim
  have := hclaim ExtState.init [] 0 .failure sampleEnv rfl
  exact absurd this (by decide)

/-- C8 (amended): every start attempt that fails before recording begins
leaves the state Idle, surfaces an error, arms no timer, touches no file on
disk and makes no API call — but the temp-file path field is not cleared on
the spawn-failure path. -/
theorem c8_start_failure_state (s : ExtState) (fs : FS) (newId : Nat)
    (o : StartOutcome) (cenv : ConvOutcome) (tenv : TranscribeEnv)
    (hidle : s.currentState = .idle) (hno : o ≠ .spawnOk) :
    (startRecording s fs newId o cenv tenv).1.currentState = .idle ∧
    (startRecording s fs newId o cenv tenv).2.2.errorSurfaced = true ∧
    (startRecording s fs newId o cenv tenv).2.1 = fs ∧
    (startRecording s fs newId o cenv tenv).1.recordingTimer =
      s.recordingTimer ∧
    (startRecording s fs newId o cenv tenv).2.2.apiCalls = 0 := by
  cases o with
  | soxFail => exact ⟨hidle, rfl, rfl, rfl, rfl⟩
  | spawnNoPipes =>
    have hnoop := stop_noop { s with tempFilePath := some (.wav newId) }
      fs cenv tenv (by show s.currentState ≠ .recording; rw [hidle]; decide)
    unfold startRecording
    dsimp only
    rw [hnoop]
    exact ⟨hidle, rfl, rfl, rfl, rfl⟩
  | spawnOk => exact absurd rfl hno

/-- C8 witness: the amended theorem at a concrete spawn failure from the
initial state. -/
theorem c8_start_failure_state_witness :
    ExtState.init.currentState = .idle ∧
    (StartOutcome.spawnNoPipes ≠ .spawnOk) ∧
    ((startRecording ExtState.init [] 0 .spawnNoPipes .failure
        sampleEnv).1.currentState = .idle ∧
      (startRecording ExtState.init [] 0 .spawnNoPipes .failure
        sampleEnv).2.2.errorSurfaced = true ∧
      (startRecording ExtState.init [] 0 .spawnNoPipes .failure
        sampleEnv).2.1 = [] ∧
      (startRecording ExtState.init [] 0 .spawnNoPipes .failure
        sampleEnv).1.recordingTimer = ExtState.init.recordingTimer ∧
      (startRecording ExtState.init [] 0 .spawnNoPipes .failure
        sampleEnv).2.2.apiCalls = 0) :=
  ⟨rfl, by decide,
    c8_start_failure_state ExtState.init [] 0 .spawnNoPipes .failure
      sampleEnv rfl (by decide)⟩

/-- C10 counterexample: the claim says a session started with
`startDictation` always runs in Normal mode.  A toggle start attempt that
fails before Recording (here: SoX verification fails) leaves ClipboardOnly
set — the reset routine never runs because the session never left Idle —
so the next `startDictation` session reaches Recording in ClipboardOnly
mode. -/
theorem c10_counterexample :
    ¬ (∀ (s : ExtState) (fs : FS) (newId : Nat) (cenv : ConvOutcome)
        (tenv : TranscribeEnv),
        (startDictationCmd s fs newId .spawnOk cenv
            tenv).1.currentState = .recording →
        (startDictationCmd s fs newId .spawnOk cenv
            tenv).1.currentDictationMode = .normal) := by
  intro hclaim
  have := hclaim
    (toggleDictationCmd ExtState.init [] 0 .soxFail .failure sampleEnv).1
    [] 1 .failure sampleEnv (by decide)
  exact absurd this (by decide)

/-- C10 (amended): every transition back to Idle through the reset routine
resets the dictation mode to Normal — in particular every session that
reaches Processing via `stopRecording` ends with mode Normal — but a toggle
start attempt that fails before Recording leaves ClipboardOnly set for the
next session. -/
theorem c10_reset_clears_mode (s : ExtState) (fs : FS)
    (cenv : ConvOutcome) (tenv : TranscribeEnv)
    (hrec : s.currentState = .recording) :
    (resetRecordingState s fs).1.currentDictationMode = .normal ∧
    (stopRecording s fs cenv tenv).1.currentDictationMode = .normal :=
  ⟨(reset_fields s fs).2.1, (stop_spec s fs cenv tenv hrec).2.1⟩

/-- C10 witness: the amended theorem at a concrete clipboard-only session
being stopped. -/
theorem c10_reset_clears_mode_witness :
    ({ sampleRec with
      currentDictationMode := DictationMode.clipboardOnly } :
        ExtState).currentState = .recording ∧
    ((resetRecordingState
        { sampleRec with
          currentDictationMode := DictationMode.clipboardOnly }
        [(FPath.wav 0, 5)]).1.currentDictationMode = .normal ∧
      (stopRecording
        { sampleRec with
          currentDictationMode := DictationMode.clipboardOnly }
        [(FPath.wav 0, 5)] .failure
        sampleEnv).1.currentDictationMode = .normal) :=
  ⟨rfl,
    c10_reset_clears_mode
      { sampleRec with
        currentDictationMode := DictationMode.clipboardOnly }
      [(FPath.wav 0, 5)] .failure sampleEnv rfl⟩

end WhisperDictation
